import Mathlib

/-!
Verification of the vault-plugin-secrets-jwt role and sign behaviour.

The embedding follows `plugin/path_roles.go` (the role CRUD path) directly.
The sign path and the config CRUD path are not among the provided sources;
where a property depends on them they are modelled from the design
document, and each such definition says so in its doc comment.

Conventions of the embedding:
  - Go `map[string]interface{}` claim maps become association lists
    `List (String × ClaimValue)`, with `ClaimValue` covering the dynamic
    types the code distinguishes (`string`, `[]string`, numbers, anything
    else).
  - A compiled `*regexp.Regexp` is represented by its matcher
    `String → Bool`; the code only ever calls `MatchString`, so this is the
    whole interface the regex library exposes to the plugin.  `regexp.Compile`
    is a parameter `compile : String → Option (String → Bool)` (`none` for a
    compile error).
  - Vault storage for roles is an association list from role name to role.
    Storage I/O failures and undecodable entries occur, in the write path,
    before any of the validations the theorems are about, and are not
    modelled there; the read path (`getRole` / `pathRolesRead`) models them
    explicitly because its theorems are about exactly those errors.
-/

namespace JwtSecrets

/-- Dynamic claim value, mirroring `interface{}` in the claim maps.
The code distinguishes `string`, `[]string` and "anything else"; numbers
get their own constructor so that concrete test inputs such as
`exp: 1234` can be written. -/
inductive ClaimValue where
  | str (s : String)
  | strList (l : List String)
  | num (n : Int)
  | other
  deriving DecidableEq

/-- Plugin config as used by `path_roles.go`: the allow-list map built from
`allowed_claims`, the compiled default audience pattern, and the maximum
audience count (`-1` = unbounded).  The config CRUD code is not among the
provided sources; these are exactly the fields `pathRolesWrite` reads. -/
structure Config where
  allowedClaimsMap : List (String × Bool)
  AudiencePattern : String → Bool
  MaxAudiences : Int

/-- Role record, from the `Role` struct of `path_roles.go`.  Defaults are the
Go zero values (`role = &Role{}` for a fresh role). -/
structure Role where
  Issuer : String := ""
  Claims : List (String × ClaimValue) := []
  SubjectPattern : Option (String → Bool) := none
  AudiencePattern : Option (String → Bool) := none

/-- Request operation, as far as `pathRolesWrite` distinguishes it
(`req.Operation == logical.CreateOperation`). -/
inductive Operation where
  | create
  | update
  deriving DecidableEq

/-- Field data for a role write, one optional field per schema entry of the
`roles/<name>` path (`d.GetOk` yields `none` when the field is absent).
`max_allowed_audiences` is declared in the path schema but, as the theorems
record, never read by the write handler. -/
structure RoleWriteData where
  name : Option String := none
  issuer : Option String := none
  claims : Option (List (String × ClaimValue)) := none
  audience_pattern : Option String := none
  subject_pattern : Option String := none
  max_allowed_audiences : Option Int := none

/-- Association-list lookup for claim maps. -/
def lookupClaim (cs : List (String × ClaimValue)) (k : String) : Option ClaimValue :=
  (cs.find? (fun kv => kv.1 == k)).map (fun kv => kv.2)

/-- Key-membership test for claim maps (`_, ok := m[k]`). -/
def containsKey (cs : List (String × ClaimValue)) (k : String) : Bool :=
  cs.any (fun kv => kv.1 == k)

/-- The allow-list test of `pathRolesWrite`:
`allowedClaim, ok := config.allowedClaimsMap[claim]; !ok || !allowedClaim`
rejects, so a claim is allowed iff it is present in the map with value
`true`. -/
def claimAllowed (config : Config) (k : String) : Bool :=
  match config.allowedClaimsMap.find? (fun kv => kv.1 == k) with
  | some kv => kv.2
  | none => false

/-- Role storage: role name to stored role. -/
def RoleStorage := List (String × Role)

/-- Storage get for the write path (`getRole` on intact storage). -/
def lookupRole (s : RoleStorage) (nm : String) : Option Role :=
  (s.find? (fun kv => kv.1 == nm)).map (fun kv => kv.2)

/-- Storage put (`setRole`): later gets see the new entry. -/
def setRoleStorage (s : RoleStorage) (nm : String) (r : Role) : RoleStorage :=
  (nm, r) :: s

/-- Outcome of a role write: a request error
(`logical.ErrorResponse(...), logical.ErrInvalidRequest` or the
`missing role name` error response), an internal error (`nil, err`), or
success (`nil, nil` after the storage put). -/
inductive WriteRes where
  | requestError (msg : String)
  | internalError (msg : String)
  | ok
  deriving DecidableEq

/-- Pattern-field update of `pathRolesWrite`: when a new pattern string is
supplied it must compile (a compile error aborts the write), otherwise the
previously stored compiled pattern is kept. -/
def compilePattern (compile : String → Option (String → Bool))
    (src? : Option String) (old : Option (String → Bool)) :
    Except String (Option (String → Bool)) :=
  match src? with
  | none => Except.ok old
  | some src =>
    match compile src with
    | none => Except.error "error compiling pattern"
    | some m => Except.ok (some m)

/-- Field-merge phase of `pathRolesWrite` (lines 193-217): overlay issuer,
claims and compiled patterns from the request onto the stored role.  The
`max_allowed_audiences` field of the request is not consulted anywhere in
the handler, and `Role` has no field to hold it. -/
def buildRole (compile : String → Option (String → Bool))
    (d : RoleWriteData) (r0 : Role) : Except String Role :=
  match compilePattern compile d.audience_pattern r0.AudiencePattern with
  | Except.error e => Except.error e
  | Except.ok aud =>
    match compilePattern compile d.subject_pattern r0.SubjectPattern with
    | Except.error e => Except.error e
    | Except.ok sub =>
      Except.ok
        { Issuer := match d.issuer with | some i => i | none => r0.Issuer
          Claims := d.claims.getD r0.Claims
          SubjectPattern := sub
          AudiencePattern := aud }

/-- Validation block of `pathRolesWrite` (lines 219-255), in source order:
every claim key must be allow-listed by the config; `iss` must not appear in
the claims; `sub` must not appear in the claims; a static `aud` claim must
be a string matching the config audience pattern or a string list within
the config audience count whose members all match the config pattern, any
other type being rejected.  Returns the error message of the first failing
check, `none` when all pass. -/
def roleWriteChecks (config : Config) (role : Role) : Option String :=
  match role.Claims.find? (fun kv => !(claimAllowed config kv.1)) with
  | some kv => some ("claim " ++ kv.1 ++ " not permitted")
  | none =>
    if containsKey role.Claims "iss" then
      some "iss claim cannot be present in claims field"
    else if containsKey role.Claims "sub" then
      some "sub claim cannot be present in claims field"
    else
      match lookupClaim role.Claims "aud" with
      | none => none
      | some (ClaimValue.str a) =>
        if config.AudiencePattern a then none
        else some "validation of aud claim failed"
      | some (ClaimValue.strList l) =>
        if config.MaxAudiences > -1 ∧ (l.length : Int) > config.MaxAudiences then
          some "too many audience claims"
        else if l.all (fun x => config.AudiencePattern x) then none
        else some "validation of aud claim failed"
      | some _ => some "aud claim was not string or string list"

/-- The role write handler `pathRolesWrite`, following the Go control flow:
missing name is a request error; a missing issuer on a create operation is
an internal error; then the request fields are overlaid on the stored role
(compile errors are internal errors); then the validation block runs, any
failure returning a request error with storage untouched; only when every
check passes is the storage put executed.  The loaded config is a parameter
(the `getConfig` code is not among the provided sources; its success case
yields exactly a `Config`). -/
def pathRolesWrite (compile : String → Option (String → Bool)) (op : Operation)
    (d : RoleWriteData) (config : Config) (s : RoleStorage) :
    WriteRes × RoleStorage :=
  match d.name with
  | none => (WriteRes.requestError "missing role name", s)
  | some nm =>
    if d.issuer = none ∧ op = Operation.create then
      (WriteRes.internalError "missing issuer in role", s)
    else
      match buildRole compile d ((lookupRole s nm).getD {}) with
      | Except.error e => (WriteRes.internalError e, s)
      | Except.ok role =>
        match roleWriteChecks config role with
        | some msg => (WriteRes.requestError msg, s)
        | none => (WriteRes.ok, setRoleStorage s nm role)

/-! ### The sign path, modelled from the spec

The claim-merge-and-validation engine (`path_sign.go`) is not among the
provided sources; only its tests are.  It is modelled from the design
document's section 4.1, step by step. -/

/-- Modelled from the spec: the reserved structural keys a sign request may
never set (section 4.1 step 1; `sub` is deliberately absent, being one of
the two request-settable identity claims). -/
def reservedSignKeys : List String := ["iss", "exp", "iat", "nbf", "jti"]

/-- Modelled from the spec: effective audience pattern at sign time is the
role's if set, else the config's (section 4.1 step 4; the role's value wins
outright, no combination of patterns). -/
def effectiveAudPattern (role : Role) (config : Config) : String → Bool :=
  match role.AudiencePattern with
  | some p => p
  | none => config.AudiencePattern

/-- Modelled from the spec: effective max-audience count is the role's if
set, else the config's, `-1` meaning unbounded (section 4.1 step 4).  The
role-level ceiling is passed separately because the `Role` struct of
`path_roles.go` has no field for it. -/
def effectiveMaxAudiences (roleMax : Option Int) (config : Config) : Int :=
  match roleMax with
  | some m => m
  | none => config.MaxAudiences

/-- Modelled from the spec: errors of the claim-merge engine, one per
validation step of section 4.1. -/
inductive MergeError where
  | reservedClaim
  | roleClaimOverride
  | disallowedClaim
  | subjectMismatch
  | audPatternMismatch
  | tooManyAudiences
  | typeError
  deriving DecidableEq

/-- Modelled from the spec: section 4.1 step 3, validate a request-supplied
`sub` against the role's subject pattern when one is set. -/
def checkSub (role : Role) (req : List (String × ClaimValue)) : Option MergeError :=
  match lookupClaim req "sub" with
  | none => none
  | some (ClaimValue.str s) =>
    match role.SubjectPattern with
    | some p => if p s then none else some MergeError.subjectMismatch
    | none => none
  | some _ => some MergeError.typeError

/-- Modelled from the spec: section 4.1 step 4, validate a request-supplied
`aud` against the effective pattern and effective count. -/
def checkAud (role : Role) (roleMax : Option Int) (config : Config)
    (req : List (String × ClaimValue)) : Option MergeError :=
  match lookupClaim req "aud" with
  | none => none
  | some (ClaimValue.str a) =>
    if effectiveAudPattern role config a then none
    else some MergeError.audPatternMismatch
  | some (ClaimValue.strList l) =>
    let m := effectiveMaxAudiences roleMax config
    if m > -1 ∧ (l.length : Int) > m then some MergeError.tooManyAudiences
    else if l.all (fun x => effectiveAudPattern role config x) then none
    else some MergeError.audPatternMismatch
  | some _ => some MergeError.typeError

/-- Replace-or-append update of a claim map. -/
def setClaim (cs : List (String × ClaimValue)) (k : String) (v : ClaimValue) :
    List (String × ClaimValue) :=
  if containsKey cs k then
    cs.map (fun kv => if kv.1 == k then (k, v) else kv)
  else cs ++ [(k, v)]

/-- Modelled from the spec: section 4.1 step 5, compose the final claim set:
start from the role's static claims, overlay request-supplied `aud` and
`sub`, overlay the other (allow-listed) request claims, then set the
computed reserved claims last so they cannot be shadowed. -/
def composeClaims (role : Role) (req : List (String × ClaimValue))
    (now lifetime : Int) (jti : String) : List (String × ClaimValue) :=
  let base := role.Claims
  let base := match lookupClaim req "aud" with
    | some v => setClaim base "aud" v
    | none => base
  let base := match lookupClaim req "sub" with
    | some v => setClaim base "sub" v
    | none => base
  let base := (req.filter (fun kv => kv.1 != "aud" && kv.1 != "sub")).foldl
    (fun acc kv => setClaim acc kv.1 kv.2) base
  let base := setClaim base "iss" (ClaimValue.str role.Issuer)
  let base := setClaim base "iat" (ClaimValue.num now)
  let base := setClaim base "nbf" (ClaimValue.num now)
  let base := setClaim base "exp" (ClaimValue.num (now + lifetime))
  setClaim base "jti" (ClaimValue.str jti)

/-- Modelled from the spec: the claim-merge-and-validation engine of
section 4.1, `merge(role, config, requestClaims)`, steps in strict order:
(1) reject reserved structural keys in the request; (2) reject request keys
that override role-fixed claims, and require every other request key apart
from `aud` and `sub` to be allow-listed; (3) validate `sub`; (4) validate
`aud`; (5) compose the final claim set.  `now`, `lifetime` and `jti` stand
for the clock, the effective token lifetime and the fresh token
identifier. -/
def merge (role : Role) (roleMax : Option Int) (config : Config)
    (req : List (String × ClaimValue)) (now lifetime : Int) (jti : String) :
    Except MergeError (List (String × ClaimValue)) :=
  if req.any (fun kv => reservedSignKeys.contains kv.1) then
    Except.error MergeError.reservedClaim
  else if req.any (fun kv => containsKey role.Claims kv.1) then
    Except.error MergeError.roleClaimOverride
  else if req.any (fun kv => kv.1 != "aud" && kv.1 != "sub" && !(claimAllowed config kv.1)) then
    Except.error MergeError.disallowedClaim
  else
    match checkSub role req with
    | some e => Except.error e
    | none =>
      match checkAud role roleMax config req with
      | some e => Except.error e
      | none => Except.ok (composeClaims role req now lifetime jti)

/-! ### The role read path, from `path_roles.go` -/

/-- A stored entry as the read path sees it: either it decodes into a role
(`entry.DecodeJSON` succeeds) or it does not. -/
inductive StorageEntry where
  | roleJSON (r : Role)
  | corrupt

/-- Result of a raw storage get (`stg.Get`): an I/O error, no entry, or an
entry. -/
inductive GetResult where
  | getFailed
  | missing
  | found (e : StorageEntry)

/-- Storage as the read path sees it: raw get by path. -/
def ReadStorage := String → GetResult

/-- Error cases of `getRole`. -/
inductive RoleGetErr where
  | missingName
  | storageErr
  | decodeErr
  deriving DecidableEq

/-- `getRole` from `path_roles.go`: an empty name is an error; a storage
failure propagates; a missing entry yields `ok none` (no error); an entry
that fails to decode is an error; otherwise the decoded role.  The storage
path is `path.Join("role", name)`. -/
def getRole (stg : ReadStorage) (name : String) : Except RoleGetErr (Option Role) :=
  if name = "" then Except.error RoleGetErr.missingName
  else
    match stg ("role/" ++ name) with
    | GetResult.getFailed => Except.error RoleGetErr.storageErr
    | GetResult.missing => Except.ok none
    | GetResult.found (StorageEntry.roleJSON r) => Except.ok (some r)
    | GetResult.found StorageEntry.corrupt => Except.error RoleGetErr.decodeErr

/-- Response data of a role read (`toResponseData`). -/
structure RoleResponseData where
  issuer : String
  claims : List (String × ClaimValue)
  subject_pattern : Option (String → Bool)
  audience_pattern : Option (String → Bool)

/-- `toResponseData` from `path_roles.go`. -/
def toResponseData (r : Role) : RoleResponseData :=
  { issuer := r.Issuer
    claims := r.Claims
    subject_pattern := r.SubjectPattern
    audience_pattern := r.AudiencePattern }

/-- Outcome of a role read: an error (`nil, err`), a success with no
response (`nil, nil`), or a success with the role's response data. -/
inductive ReadRes where
  | readErr (e : RoleGetErr)
  | emptySuccess
  | dataResponse (d : RoleResponseData)

/-- `pathRolesRead` from `path_roles.go`: propagate a `getRole` error; when
the role is absent return success with no data; otherwise return the role's
response data. -/
def pathRolesRead (stg : ReadStorage) (name : String) : ReadRes :=
  match getRole stg name with
  | Except.error e => ReadRes.readErr e
  | Except.ok none => ReadRes.emptySuccess
  | Except.ok (some r) => ReadRes.dataResponse (toResponseData r)

/-! ### Helper lemmas -/

/-- A successful field merge carries exactly the claims of the request when
the request supplies a claims map, else the stored claims. -/
theorem buildRole_claims (compile : String → Option (String → Bool))
    (d : RoleWriteData) (r0 : Role) (role : Role)
    (h : buildRole compile d r0 = Except.ok role) :
    role.Claims = d.claims.getD r0.Claims := by
  unfold buildRole at h
  split at h
  · exact absurd h (by simp)
  · split at h
    · exact absurd h (by simp)
    · injection h with h
      rw [← h]

/-- Once the name is present, the issuer requirement is met and the field
merge succeeds, the write is exactly the validation block followed by the
storage put. -/
theorem write_eq_checks (compile : String → Option (String → Bool))
    (op : Operation) (d : RoleWriteData) (config : Config) (s : RoleStorage)
    (nm : String) (role : Role)
    (hnm : d.name = some nm)
    (hop : ¬(d.issuer = none ∧ op = Operation.create))
    (hbuild : buildRole compile d ((lookupRole s nm).getD {}) = Except.ok role) :
    pathRolesWrite compile op d config s =
      (match roleWriteChecks config role with
       | some msg => (WriteRes.requestError msg, s)
       | none => (WriteRes.ok, setRoleStorage s nm role)) := by
  simp only [pathRolesWrite, hnm]
  rw [if_neg hop]
  rw [hbuild]

/-- A claim key outside the config allow-list makes the validation block
fail. -/
theorem checks_some_of_disallowed (config : Config) (role : Role)
    (h : ∃ kv, kv ∈ role.Claims ∧ claimAllowed config kv.1 = false) :
    (roleWriteChecks config role).isSome = true := by
  rcases h with ⟨kv, hmem, hfalse⟩
  unfold roleWriteChecks
  cases hf : role.Claims.find? (fun kv => !(claimAllowed config kv.1)) with
  | some kv' => rfl
  | none =>
    have := List.find?_eq_none.mp hf kv hmem
    simp [hfalse] at this

/-- An `iss` or `sub` key among the claims makes the validation block
fail. -/
theorem checks_some_of_iss_sub (config : Config) (role : Role)
    (h : containsKey role.Claims "iss" = true ∨ containsKey role.Claims "sub" = true) :
    (roleWriteChecks config role).isSome = true := by
  unfold roleWriteChecks
  cases hf : role.Claims.find? (fun kv => !(claimAllowed config kv.1)) with
  | some kv' => rfl
  | none =>
    rcases h with hi | hs
    · simp [hi]
    · by_cases hi : containsKey role.Claims "iss" = true
      · simp [hi]
      · simp [hi, hs]

/-- A failing validation block turns the whole write into a request error
with storage untouched. -/
theorem write_requestError_of_checks (compile : String → Option (String → Bool))
    (op : Operation) (d : RoleWriteData) (config : Config) (s : RoleStorage)
    (nm : String) (role : Role) (msg : String)
    (hnm : d.name = some nm)
    (hop : ¬(d.issuer = none ∧ op = Operation.create))
    (hbuild : buildRole compile d ((lookupRole s nm).getD {}) = Except.ok role)
    (hchecks : roleWriteChecks config role = some msg) :
    pathRolesWrite compile op d config s = (WriteRes.requestError msg, s) := by
  rw [write_eq_checks compile op d config s nm role hnm hop hbuild, hchecks]

/-! ### Claim theorems -/

/-- C1 counterexample: with `exp` present in the config allow-list, a role
write whose claims map contains the reserved key `exp` succeeds and stores
the role, so the claim that any reserved key among iss, sub, exp, iat, nbf,
jti is rejected at write time regardless of the config allow-list is false
on the code: only `iss` and `sub` have unconditional write-time checks. -/
theorem roleWrite_allowlisted_exp_stored :
    pathRolesWrite (fun _ => none) Operation.create
      { name := some "r", issuer := some "i",
        claims := some [("exp", ClaimValue.num 1234)] }
      { allowedClaimsMap := [("exp", true)], AudiencePattern := fun _ => true,
        MaxAudiences := -1 } []
    = (WriteRes.ok,
       [("r", { Issuer := "i", Claims := [("exp", ClaimValue.num 1234)],
                SubjectPattern := none, AudiencePattern := none })]) := rfl

/-- C1 (corrected, amended): a role write whose submitted claims map
contains `iss` or `sub` fails with a request error and stores nothing,
regardless of the config allow-list; a write whose claims map contains
`exp`, `iat`, `nbf` or `jti` fails likewise whenever that key is not in the
config's allowed claims. -/
theorem roleWrite_reserved_iss_sub_and_allowlist
    (compile : String → Option (String → Bool)) (op : Operation)
    (d : RoleWriteData) (config : Config) (s : RoleStorage)
    (nm : String) (role : Role) (cs : List (String × ClaimValue))
    (hnm : d.name = some nm)
    (hop : ¬(d.issuer = none ∧ op = Operation.create))
    (hbuild : buildRole compile d ((lookupRole s nm).getD {}) = Except.ok role)
    (hcl : d.claims = some cs) :
    ((containsKey cs "iss" = true ∨ containsKey cs "sub" = true) →
      ∃ msg, pathRolesWrite compile op d config s = (WriteRes.requestError msg, s))
    ∧ (∀ k v, k ∈ (["exp", "iat", "nbf", "jti"] : List String) → (k, v) ∈ cs →
        claimAllowed config k = false →
        ∃ msg, pathRolesWrite compile op d config s = (WriteRes.requestError msg, s)) := by
  have hc : role.Claims = cs := by
    rw [buildRole_claims compile d _ role hbuild, hcl]
    rfl
  constructor
  · intro h
    obtain ⟨msg, hmsg⟩ :=
      Option.isSome_iff_exists.mp (checks_some_of_iss_sub config role (hc ▸ h))
    exact ⟨msg, write_requestError_of_checks compile op d config s nm role msg
      hnm hop hbuild hmsg⟩
  · intro k v _ hmem hfalse
    obtain ⟨msg, hmsg⟩ :=
      Option.isSome_iff_exists.mp
        (checks_some_of_disallowed config role ⟨(k, v), hc ▸ hmem, hfalse⟩)
    exact ⟨msg, write_requestError_of_checks compile op d config s nm role msg
      hnm hop hbuild hmsg⟩

/-- C1 witness: a role write whose claims map contains `iss` is rejected
with a request error and leaves storage empty, even though `iss` is
allow-listed in the config. -/
theorem roleWrite_reserved_iss_sub_and_allowlist_witness :
    ∃ msg, pathRolesWrite (fun _ => none) Operation.create
      { name := some "r", issuer := some "i",
        claims := some [("iss", ClaimValue.str "x")] }
      { allowedClaimsMap := [("iss", true)], AudiencePattern := fun _ => true,
        MaxAudiences := -1 } []
    = (WriteRes.requestError msg, []) :=
  (roleWrite_reserved_iss_sub_and_allowlist (fun _ => none) Operation.create
      { name := some "r", issuer := some "i",
        claims := some [("iss", ClaimValue.str "x")] }
      { allowedClaimsMap := [("iss", true)], AudiencePattern := fun _ => true,
        MaxAudiences := -1 } []
      "r" { Issuer := "i", Claims := [("iss", ClaimValue.str "x")],
            SubjectPattern := none, AudiencePattern := none }
      [("iss", ClaimValue.str "x")]
      rfl (by simp) rfl rfl).1 (Or.inl rfl)

/-- C3: the role write handler never reads the `max_allowed_audiences`
request field that its own path schema declares, and the `Role` record has
no field to store it, so a role-level max-audience override supplied on a
role write is silently dropped rather than stored and later applied: the
whole write outcome, including the stored role, is invariant under that
field. -/
theorem roleWrite_ignores_max_allowed_audiences
    (compile : String → Option (String → Bool)) (op : Operation)
    (d : RoleWriteData) (config : Config) (s : RoleStorage) (m : Option Int) :
    pathRolesWrite compile op { d with max_allowed_audiences := m } config s
    = pathRolesWrite compile op d config s := rfl

/-- C4 counterexample: a role whose claims map contains only the key `aud`
is rejected with claim-not-permitted when `aud` is not in the config's
allowed claims, so the claim that `aud` is exempt from the write-time
allow-list is false on the code: the allow-list loop runs over every claim
key with no `aud` exception. -/
theorem roleWrite_aud_only_rejected :
    pathRolesWrite (fun _ => none) Operation.create
      { name := some "r", issuer := some "i",
        claims := some [("aud", ClaimValue.str "x")] }
      { allowedClaimsMap := [], AudiencePattern := fun _ => true,
        MaxAudiences := -1 } []
    = (WriteRes.requestError "claim aud not permitted", []) := rfl

/-- C4 (corrected, amended): every key present in the submitted claims map,
`aud` included, must appear in the config's allowed claims at the time of
the write: a write carrying a non-allow-listed key fails with a request
error and stores nothing, and a write that succeeds had every submitted
claim key allow-listed. -/
theorem roleWrite_allowlist_covers_every_claim
    (compile : String → Option (String → Bool)) (op : Operation)
    (d : RoleWriteData) (config : Config) (s : RoleStorage)
    (nm : String) (role : Role) (cs : List (String × ClaimValue))
    (hnm : d.name = some nm)
    (hop : ¬(d.issuer = none ∧ op = Operation.create))
    (hbuild : buildRole compile d ((lookupRole s nm).getD {}) = Except.ok role)
    (hcl : d.claims = some cs) :
    ((∃ kv, kv ∈ cs ∧ claimAllowed config kv.1 = false) →
      ∃ msg, pathRolesWrite compile op d config s = (WriteRes.requestError msg, s))
    ∧ (∀ s', (pathRolesWrite compile op d config s) = (WriteRes.ok, s') →
        ∀ kv, kv ∈ cs → claimAllowed config kv.1 = true) := by
  have hc : role.Claims = cs := by
    rw [buildRole_claims compile d _ role hbuild, hcl]
    rfl
  constructor
  · intro h
    rcases h with ⟨kv, hmem, hfalse⟩
    obtain ⟨msg, hmsg⟩ :=
      Option.isSome_iff_exists.mp
        (checks_some_of_disallowed config role ⟨kv, hc ▸ hmem, hfalse⟩)
    exact ⟨msg, write_requestError_of_checks compile op d config s nm role msg
      hnm hop hbuild hmsg⟩
  · intro s' hok kv hmem
    by_contra hfalse
    obtain ⟨msg, hmsg⟩ :=
      Option.isSome_iff_exists.mp
        (checks_some_of_disallowed config role
          ⟨kv, hc ▸ hmem, Bool.eq_false_iff.mpr hfalse⟩)
    rw [write_requestError_of_checks compile op d config s nm role msg
      hnm hop hbuild hmsg] at hok
    exact absurd (congrArg Prod.fst hok) (by simp)

/-- C4 witness: with `aud` and `foo` allow-listed, a role write whose claims
map contains the non-allow-listed key `bar` fails with a request error and
stores nothing. -/
theorem roleWrite_allowlist_covers_every_claim_witness :
    ∃ msg, pathRolesWrite (fun _ => none) Operation.create
      { name := some "r", issuer := some "i",
        claims := some [("bar", ClaimValue.str "y")] }
      { allowedClaimsMap := [("aud", true), ("foo", true)],
        AudiencePattern := fun _ => true, MaxAudiences := -1 } []
    = (WriteRes.requestError msg, []) :=
  (roleWrite_allowlist_covers_every_claim (fun _ => none) Operation.create
      { name := some "r", issuer := some "i",
        claims := some [("bar", ClaimValue.str "y")] }
      { allowedClaimsMap := [("aud", true), ("foo", true)],
        AudiencePattern := fun _ => true, MaxAudiences := -1 } []
      "r" { Issuer := "i", Claims := [("bar", ClaimValue.str "y")],
            SubjectPattern := none, AudiencePattern := none }
      [("bar", ClaimValue.str "y")]
      rfl (by simp) rfl rfl).1
    ⟨("bar", ClaimValue.str "y"), by simp, rfl⟩

/-- C8: on a role write where the validation block fails — a claim key
outside the config allow-list, a reserved `iss` or `sub` key among the
claims, a static `aud` violating the config audience pattern or count, or
an `aud` value of the wrong type — the handler returns a request error and
the role storage is exactly what it was: the storage put is never
executed. -/
theorem roleWrite_validation_atomic
    (compile : String → Option (String → Bool)) (op : Operation)
    (d : RoleWriteData) (config : Config) (s : RoleStorage)
    (nm : String) (role : Role) (msg : String)
    (hnm : d.name = some nm)
    (hop : ¬(d.issuer = none ∧ op = Operation.create))
    (hbuild : buildRole compile d ((lookupRole s nm).getD {}) = Except.ok role)
    (hfail : roleWriteChecks config role = some msg) :
    pathRolesWrite compile op d config s = (WriteRes.requestError msg, s) :=
  write_requestError_of_checks compile op d config s nm role msg hnm hop hbuild hfail

/-- C8 witness: a role write whose static `aud` list exceeds the config's
maximum audience count is rejected with a request error and the pre-existing
storage is returned unchanged. -/
theorem roleWrite_validation_atomic_witness :
    pathRolesWrite (fun _ => none) Operation.create
      { name := some "r", issuer := some "i",
        claims := some [("aud", ClaimValue.strList ["a", "b", "c"])] }
      { allowedClaimsMap := [("aud", true)], AudiencePattern := fun _ => true,
        MaxAudiences := 2 }
      [("other", { Issuer := "o" })]
    = (WriteRes.requestError "too many audience claims",
       [("other", { Issuer := "o" })]) :=
  roleWrite_validation_atomic (fun _ => none) Operation.create
    { name := some "r", issuer := some "i",
      claims := some [("aud", ClaimValue.strList ["a", "b", "c"])] }
    { allowedClaimsMap := [("aud", true)], AudiencePattern := fun _ => true,
      MaxAudiences := 2 }
    [("other", { Issuer := "o" })]
    "r" { Issuer := "i", Claims := [("aud", ClaimValue.strList ["a", "b", "c"])],
          SubjectPattern := none, AudiencePattern := none }
    "too many audience claims"
    rfl (by simp) rfl (by decide)

/-- C9: the write-time validation of a static `aud` claim is performed
against the config's audience pattern and the config's maximum audience
count and is insensitive to the role's own audience pattern: a string `aud`
passes exactly when it matches the config pattern, a string-list `aud`
passes exactly when it is within the config's count bound (when that bound
exceeds `-1`) and every element matches the config pattern, and an `aud` of
any other type always fails. -/
theorem roleWrite_aud_validated_against_config
    (config : Config) (role : Role)
    (hAllowed : ∀ kv, kv ∈ role.Claims → claimAllowed config kv.1 = true)
    (hIss : containsKey role.Claims "iss" = false)
    (hSub : containsKey role.Claims "sub" = false) :
    (∀ p, roleWriteChecks config { role with AudiencePattern := p }
      = roleWriteChecks config role)
    ∧ (∀ a, lookupClaim role.Claims "aud" = some (ClaimValue.str a) →
        (roleWriteChecks config role = none ↔ config.AudiencePattern a = true))
    ∧ (∀ l, lookupClaim role.Claims "aud" = some (ClaimValue.strList l) →
        (roleWriteChecks config role = none ↔
          (¬(config.MaxAudiences > -1 ∧ (l.length : Int) > config.MaxAudiences)
           ∧ ∀ x, x ∈ l → config.AudiencePattern x = true)))
    ∧ (∀ n, lookupClaim role.Claims "aud" = some (ClaimValue.num n) →
        roleWriteChecks config role ≠ none)
    ∧ (lookupClaim role.Claims "aud" = some ClaimValue.other →
        roleWriteChecks config role ≠ none) := by
  have hf : role.Claims.find? (fun kv => !(claimAllowed config kv.1)) = none :=
    List.find?_eq_none.mpr (fun kv hmem => by simp [hAllowed kv hmem])
  refine ⟨fun p => rfl, ?_, ?_, ?_, ?_⟩
  · intro a haud
    simp only [roleWriteChecks, hf, hIss, hSub, haud]
    by_cases hp : config.AudiencePattern a = true <;> simp [hp]
  · intro l haud
    simp only [roleWriteChecks, hf, hIss, hSub, haud]
    by_cases hm : config.MaxAudiences > -1 ∧ (l.length : Int) > config.MaxAudiences
    · simp [hm]
    · by_cases hall : (l.all fun x => config.AudiencePattern x) = true
      · rw [List.all_eq_true] at hall
        simp [hm, hall]
      · rw [List.all_eq_true] at hall
        simp [hm, hall]
  · intro n haud
    simp [roleWriteChecks, hf, hIss, hSub, haud]
  · intro haud
    simp [roleWriteChecks, hf, hIss, hSub, haud]

/-- C9 witness: for a role whose claims carry the static audience list
consisting of the single string A, with `aud` allow-listed, a config whose
audience pattern accepts exactly A and whose maximum audience count is 1,
the write-time validation passes exactly when the config count bound and
config pattern accept the list. -/
theorem roleWrite_aud_validated_against_config_witness :
    roleWriteChecks
      { allowedClaimsMap := [("aud", true)],
        AudiencePattern := fun s => s == "A", MaxAudiences := 1 }
      { Issuer := "i", Claims := [("aud", ClaimValue.strList ["A"])] } = none
    ↔ (¬((1 : Int) > -1 ∧ ((["A"] : List String).length : Int) > 1)
       ∧ ∀ x, x ∈ (["A"] : List String) → (fun s => s == "A") x = true) :=
  (roleWrite_aud_validated_against_config
      { allowedClaimsMap := [("aud", true)],
        AudiencePattern := fun s => s == "A", MaxAudiences := 1 }
      { Issuer := "i", Claims := [("aud", ClaimValue.strList ["A"])] }
      (by decide) rfl rfl).2.2.1 ["A"] rfl

/-- C10: on a non-empty role name, reading a role for which storage holds
no entry returns a successful empty response (no data, no error) rather
than a not-found error, and the read returns an error only when the raw
storage get fails or the stored entry fails to decode. -/
theorem rolesRead_missing_role_empty_success (stg : ReadStorage) (name : String)
    (h : name ≠ "") :
    (stg ("role/" ++ name) = GetResult.missing →
      pathRolesRead stg name = ReadRes.emptySuccess)
    ∧ (∀ e, pathRolesRead stg name = ReadRes.readErr e →
        stg ("role/" ++ name) = GetResult.getFailed
        ∨ stg ("role/" ++ name) = GetResult.found StorageEntry.corrupt) := by
  constructor
  · intro hm
    simp [pathRolesRead, getRole, h, hm]
  · intro e he
    unfold pathRolesRead getRole at he
    rw [if_neg h] at he
    cases hg : stg ("role/" ++ name) with
    | getFailed => exact Or.inl rfl
    | missing => rw [hg] at he; simp at he
    | found entry =>
      cases entry with
      | roleJSON r => rw [hg] at he; simp at he
      | corrupt => exact Or.inr rfl

/-- C10 witness: reading the role named tester on a storage that holds no
entries yields the empty success response. -/
theorem rolesRead_missing_role_empty_success_witness :
    pathRolesRead (fun _ => GetResult.missing) "tester" = ReadRes.emptySuccess :=
  (rolesRead_missing_role_empty_success (fun _ => GetResult.missing) "tester"
    (by decide)).1 rfl

/-- C2: at sign time, when the role defines an audience pattern, the
effective pattern applied is the role's pattern alone: the config's
audience pattern is not additionally applied, so replacing it by any other
matcher leaves the whole merge outcome unchanged. -/
theorem sign_role_audience_pattern_wins
    (role : Role) (roleMax : Option Int) (config : Config)
    (q : String → Bool) (req : List (String × ClaimValue))
    (now lifetime : Int) (jti : String) (p : String → Bool)
    (h : role.AudiencePattern = some p) :
    effectiveAudPattern role config = p
    ∧ merge role roleMax config req now lifetime jti
      = merge role roleMax { config with AudiencePattern := q } req now lifetime jti := by
  have h1 : effectiveAudPattern role { config with AudiencePattern := q }
      = effectiveAudPattern role config := by
    simp [effectiveAudPattern, h]
  have h3 : effectiveMaxAudiences roleMax { config with AudiencePattern := q }
      = effectiveMaxAudiences roleMax config := rfl
  have h2 : checkAud role roleMax { config with AudiencePattern := q } req
      = checkAud role roleMax config req := by
    simp only [checkAud, h1, h3]
  refine ⟨by simp [effectiveAudPattern, h], ?_⟩
  unfold merge
  rw [h2]
  rfl

/-- C2 witness: for a role whose audience pattern accepts exactly the
string A, the merge outcome on a request supplying that audience is the
same whether the config's audience pattern accepts everything or rejects
everything, and the effective pattern is the role's. -/
theorem sign_role_audience_pattern_wins_witness :
    effectiveAudPattern
      { Issuer := "i", AudiencePattern := some (fun s => s == "A") }
      { allowedClaimsMap := [("aud", true)], AudiencePattern := fun _ => true,
        MaxAudiences := -1 } = (fun s => s == "A")
    ∧ merge { Issuer := "i", AudiencePattern := some (fun s => s == "A") } none
        { allowedClaimsMap := [("aud", true)], AudiencePattern := fun _ => true,
          MaxAudiences := -1 }
        [("aud", ClaimValue.str "A")] 0 180 "1"
      = merge { Issuer := "i", AudiencePattern := some (fun s => s == "A") } none
        { allowedClaimsMap := [("aud", true)],
          AudiencePattern := fun _ => false, MaxAudiences := -1 }
        [("aud", ClaimValue.str "A")] 0 180 "1" :=
  sign_role_audience_pattern_wins
    { Issuer := "i", AudiencePattern := some (fun s => s == "A") } none
    { allowedClaimsMap := [("aud", true)], AudiencePattern := fun _ => true,
      MaxAudiences := -1 }
    (fun _ => false) [("aud", ClaimValue.str "A")] 0 180 "1"
    (fun s => s == "A") rfl

/-- C5: for a role with issuer tester.example.com and an empty claims map,
a config with an empty allow-list (default match-all audience pattern,
unbounded count), and request claims supplying the audience list A, B, the
merge succeeds and the final claim set carries `iss` equal to the role's
issuer, `aud` equal to the supplied list, no `sub` claim, `exp` equal to
`iat` plus the token lifetime, and `iat` equal to the clock. -/
theorem sign_scenario_basic_token (now lifetime : Int) (jti : String) :
    ∃ cs, merge { Issuer := "tester.example.com" } none
      { allowedClaimsMap := [], AudiencePattern := fun _ => true, MaxAudiences := -1 }
      [("aud", ClaimValue.strList ["A", "B"])] now lifetime jti = Except.ok cs
    ∧ lookupClaim cs "iss" = some (ClaimValue.str "tester.example.com")
    ∧ lookupClaim cs "aud" = some (ClaimValue.strList ["A", "B"])
    ∧ lookupClaim cs "sub" = none
    ∧ lookupClaim cs "exp" = some (ClaimValue.num (now + lifetime))
    ∧ lookupClaim cs "iat" = some (ClaimValue.num now) := by
  refine ⟨_, rfl, ?_, ?_, ?_, ?_, ?_⟩ <;> rfl

/-- C6: a sign request whose claims share any key with the role's static
claims fails with an error and produces no token; in particular a role
fixing `aud` makes any request that also supplies `aud` fail. -/
theorem sign_rejects_role_claim_override
    (role : Role) (roleMax : Option Int) (config : Config)
    (req : List (String × ClaimValue)) (now lifetime : Int) (jti : String)
    (h : ∃ k, containsKey req k = true ∧ containsKey role.Claims k = true) :
    ∃ e, merge role roleMax config req now lifetime jti = Except.error e := by
  rcases h with ⟨k, hreq, hrole⟩
  have hreq2 : req.any (fun kv => kv.1 == k) = true := hreq
  have hB : req.any (fun kv => containsKey role.Claims kv.1) = true := by
    rcases List.any_eq_true.mp hreq2 with ⟨kv, hmem, hk⟩
    exact List.any_eq_true.mpr ⟨kv, hmem, by rw [eq_of_beq hk]; exact hrole⟩
  by_cases hA : req.any (fun kv => reservedSignKeys.contains kv.1) = true
  · exact ⟨MergeError.reservedClaim, by unfold merge; rw [if_pos hA]⟩
  · exact ⟨MergeError.roleClaimOverride, by unfold merge; rw [if_neg hA, if_pos hB]⟩

/-- C6 witness: a role with static claims fixing `aud` to fixed-audience
makes a sign request that also supplies `aud` fail. -/
theorem sign_rejects_role_claim_override_witness :
    ∃ e, merge
      { Issuer := "i", Claims := [("aud", ClaimValue.str "fixed-audience")] } none
      { allowedClaimsMap := [("aud", true)], AudiencePattern := fun _ => true,
        MaxAudiences := -1 }
      [("aud", ClaimValue.str "other")] 0 180 "1" = Except.error e :=
  sign_rejects_role_claim_override
    { Issuer := "i", Claims := [("aud", ClaimValue.str "fixed-audience")] } none
    { allowedClaimsMap := [("aud", true)], AudiencePattern := fun _ => true,
      MaxAudiences := -1 }
    [("aud", ClaimValue.str "other")] 0 180 "1"
    ⟨"aud", rfl, rfl⟩

/-- C7: a sign request whose claims contain any reserved structural key —
`iss`, `exp`, `iat`, `nbf` or `jti` — fails with an error and produces no
token, for every config (allow-list included) and every role. -/
theorem sign_rejects_reserved_request_claims
    (role : Role) (roleMax : Option Int) (config : Config)
    (req : List (String × ClaimValue)) (now lifetime : Int) (jti : String)
    (k : String)
    (hk : reservedSignKeys.contains k = true)
    (hreq : containsKey req k = true) :
    ∃ e, merge role roleMax config req now lifetime jti = Except.error e := by
  have hreq2 : req.any (fun kv => kv.1 == k) = true := hreq
  have hA : req.any (fun kv => reservedSignKeys.contains kv.1) = true := by
    rcases List.any_eq_true.mp hreq2 with ⟨kv, hmem, hkk⟩
    exact List.any_eq_true.mpr ⟨kv, hmem, by rw [eq_of_beq hkk]; exact hk⟩
  exact ⟨MergeError.reservedClaim, by unfold merge; rw [if_pos hA]⟩

/-- C7 witness: a sign request supplying the reserved claim `exp` fails
even when `exp` is present in the config allow-list. -/
theorem sign_rejects_reserved_request_claims_witness :
    ∃ e, merge { Issuer := "i" } none
      { allowedClaimsMap := [("exp", true)], AudiencePattern := fun _ => true,
        MaxAudiences := -1 }
      [("exp", ClaimValue.num 1234)] 0 180 "1" = Except.error e :=
  sign_rejects_reserved_request_claims { Issuer := "i" } none
    { allowedClaimsMap := [("exp", true)], AudiencePattern := fun _ => true,
      MaxAudiences := -1 }
    [("exp", ClaimValue.num 1234)] 0 180 "1" "exp" rfl rfl

end JwtSecrets
